import Mathlib

/-!
Verification of the two browser-side modules of this repository:

* `javascript/progressbar.js` — the adaptive polling progress reporter
  (`pad2`, `formatTime`, `getSmartRefreshRate`, `requestProgress` with its
  inner `removeProgressBar`, `funProgress` and `funLivePreview` closures);
* the intelligent thumbnail loader (`IntelligentThumbnailLoader` class:
  `processCard`, `loadCardThumbnails`, `scheduleRetry`).

Each JavaScript function is embedded as a computable Lean definition.
Stateful closures become explicit state passing over small structures;
DOM side effects that the verified properties talk about (membership sets,
the live-preview container's children, scheduled timeouts) are tracked in
those structures, while purely presentational effects (CSS styles, text
content, page title, console logging, wake-lock platform calls) are noted
in doc comments and omitted. JavaScript numbers that only ever hold
integers are embedded as `Nat`; the progress fraction and the elapsed
wall-clock seconds, which are fractional, are embedded as `ℚ` (the source
only compares and classifies them, so no float rounding is observable in
the embedded decision logic; rational constants are written with `mkRat`
so that the kernel can evaluate them, e.g. `mkRat 5 100` is the source's
literal `0.05`).
-/

namespace ProgressBar

/-- Embeds `pad2(x)` from `javascript/progressbar.js`:
`return x < 10 ? '0' + x : x;` (the result is always used in string
concatenation, so the embedding returns a `String` in both branches). -/
def pad2 (x : Nat) : String :=
  if x < 10 then "0" ++ toString x else toString x

/-- Embeds `formatTime(secs)` from `javascript/progressbar.js` at integral
seconds (`Math.floor` on a natural number is the identity, and JavaScript
float division followed by `Math.floor` coincides with `Nat` division
here): `secs > 3600` gives `pad2(h) : pad2(m) : pad2(s)`, `secs > 60`
gives `pad2(m) : pad2(s)`, otherwise `secs + "s"`. -/
def formatTime (secs : Nat) : String :=
  if secs > 3600 then
    pad2 (secs / 60 / 60) ++ ":" ++ pad2 (secs / 60 % 60) ++ ":" ++ pad2 (secs % 60)
  else if secs > 60 then
    pad2 (secs / 60) ++ ":" ++ pad2 (secs % 60)
  else
    toString secs ++ "s"

/-- Embeds `getSmartRefreshRate(progress, isActive)` from
`javascript/progressbar.js`: the adaptive poll delay in milliseconds.
The source thresholds `0.05`, `0.2`, `0.7`, `0.95` are written
`mkRat 5 100`, `mkRat 2 10`, `mkRat 7 10`, `mkRat 95 100`. -/
def getSmartRefreshRate (progress : ℚ) (isActive : Bool) : Nat :=
  if ¬isActive ∨ progress < mkRat 5 100 then 1000
  else if progress < mkRat 2 10 then 800
  else if progress < mkRat 7 10 then 400
  else if progress < mkRat 95 100 then 250
  else 200

/-- One JSON response of the `./internal/progress` endpoint, with the
fields the polling handlers inspect. `progress` is `Option` because the
source reads it as `res.progress || 0`; `eta` feeds `formatTime`;
`live_preview` stands for the preview image payload (an opaque id here).
The presentational `textinfo` and `id_live_preview` fields are omitted:
no verified property depends on them. -/
structure ProgressResponse where
  completed : Bool
  active : Bool
  queued : Bool
  progress : Option ℚ
  eta : Option Nat
  live_preview : Option Nat
deriving DecidableEq

/-- The mutable closure state of one `requestProgress` session:
`divProgress` is whether the progress-bar element is still alive
(the source's `divProgress !== null`), `wasEverActive` is the monotone
"ever became active" flag, and `atEndCalls` counts invocations of the
`atEnd` completion callback. The wake-lock handle, `dateStart` (passed
explicitly as elapsed seconds) and the DOM nodes themselves are not
tracked. -/
structure Session where
  divProgress : Bool
  wasEverActive : Bool
  atEndCalls : Nat
deriving DecidableEq

/-- Embeds the inner `removeProgressBar` closure: `releaseWakeLock()`
(omitted, platform call); `if (!divProgress) return;`; then it removes
the bar and preview elements from the DOM, calls `atEnd()` and sets
`divProgress = null`. -/
def removeProgressBar (s : Session) : Session :=
  if ¬s.divProgress then s
  else { divProgress := false, wasEverActive := s.wasEverActive, atEndCalls := s.atEndCalls + 1 }

/-- The control-flow outcome of one `funProgress` success-handler run:
which `return`ing branch fired, or the delay passed to `setTimeout` for
the next poll cycle. -/
inductive ProgressOutcome where
  | completedExit
  | droppedExit
  | timeoutExit
  | reschedule (delay : Nat)
deriving DecidableEq

/-- Embeds the success handler of `funProgress` in
`javascript/progressbar.js` (lines 149-197), with the branches in source
order: `res.completed` exit; the `wasEverActive` update
(`if (res.active) wasEverActive = true`); the drop-from-active exit
(`!res.active && wasEverActive`); the inactivity-timeout exit
(`elapsedFromStart > inactivityTimeout && !res.queued && !res.active`);
otherwise `onProgress(res)` runs (not tracked) and the next cycle is
scheduled with `getSmartRefreshRate(res.progress || 0, res.active)`.
The DOM/title updates between the completed check and the exits are
presentational and omitted. Note the handler never checks `divProgress`,
so it runs the same way on an already-terminated session. -/
def funProgress (s : Session) (inactivityTimeout elapsedFromStart : ℚ)
    (res : ProgressResponse) : Session × ProgressOutcome :=
  if res.completed then (removeProgressBar s, .completedExit)
  else
    let s1 := if res.active then { s with wasEverActive := true } else s
    if ¬res.active ∧ s1.wasEverActive then (removeProgressBar s1, .droppedExit)
    else if elapsedFromStart > inactivityTimeout ∧ ¬res.queued ∧ ¬res.active then
      (removeProgressBar s1, .timeoutExit)
    else (s1, .reschedule (getSmartRefreshRate (res.progress.getD 0) res.active))

/-- Embeds the error handler of `funProgress`: a transport failure runs
`removeProgressBar()` and schedules nothing. -/
def funProgressOnError (s : Session) : Session :=
  removeProgressBar s

/-- The control-flow outcome of one `funLivePreview` success-handler run:
either the `if (!divProgress) return;` early exit (no reschedule), or the
delay passed to `setTimeout` for the next preview cycle. -/
inductive PreviewCycleOutcome where
  | droppedCycle
  | reschedule (delay : Nat)
deriving DecidableEq

/-- Embeds the success handler of `funLivePreview` in
`javascript/progressbar.js` (lines 204-247): it first exits when
`divProgress` is null; otherwise, when `res.live_preview` is present it
starts an off-DOM image preload whose `onload` mutates the preview
container (that mutation is modeled separately by `previewStep`), and in
every non-exited case it schedules the next cycle with
`getSmartRefreshRate(res.progress || 0, res.active)`. -/
def funLivePreview (s : Session) (res : ProgressResponse) : Session × PreviewCycleOutcome :=
  if ¬s.divProgress then (s, .droppedCycle)
  else (s, .reschedule (getSmartRefreshRate (res.progress.getD 0) res.active))

/-- Embeds the error handler of `funLivePreview`: a transport failure
runs `removeProgressBar()` and schedules nothing. -/
def funLivePreviewOnError (s : Session) : Session :=
  removeProgressBar s

/-- The live-preview container: `images` are the children of the
`livePreview` div in DOM order (oldest first, images named by opaque
ids), and `pendingRemovals` are the targets of the 300 ms fade-out
`setTimeout`s that `img.onload` has scheduled but that have not yet
fired, in scheduling order. -/
structure PreviewState where
  images : List Nat
  pendingRemovals : List Nat
deriving DecidableEq

/-- Events of the live-preview container: `arrive img` is one
`img.onload` handler run for a freshly preloaded preview image, and
`fire` is the oldest pending 300 ms removal timeout firing. -/
inductive PreviewEvent where
  | arrive (img : Nat)
  | fire
deriving DecidableEq

/-- Embeds the `img.onload` handler of `funLivePreview` (lines 212-240)
and its delayed cleanup: `arrive` appends the new image
(`livePreview.appendChild(img)`), and when `childElementCount > 2` it
schedules removal of `firstElementChild` after a 300 ms fade — the
removal is NOT immediate, it is queued in `pendingRemovals`. `fire` runs
one queued `setTimeout` body: `if (oldImg.parentNode)
livePreview.removeChild(oldImg)`, a no-op when the image has already been
removed by an earlier timeout. -/
def previewStep (s : PreviewState) : PreviewEvent → PreviewState
  | .arrive img =>
    let images := s.images ++ [img]
    if images.length > 2 then
      { images := images, pendingRemovals := s.pendingRemovals ++ [images.headD 0] }
    else
      { images := images, pendingRemovals := s.pendingRemovals }
  | .fire =>
    match s.pendingRemovals with
    | [] => s
    | oldImg :: rest =>
      { images := if oldImg ∈ s.images then s.images.erase oldImg else s.images,
        pendingRemovals := rest }

/-- Runs a sequence of live-preview container events from a state. -/
def previewRun (s : PreviewState) (events : List PreviewEvent) : PreviewState :=
  events.foldl previewStep s

end ProgressBar

namespace ThumbLoader

/-- One gallery card element: `id` is the DOM element identity (distinct
elements have distinct ids) and `name` is the optional `data-name`
attribute (`card.dataset.name`). -/
structure Card where
  id : Nat
  name : Option String
deriving DecidableEq

/-- The key expression `card.dataset.name || 'unnamed'` used by
`loadCardThumbnails` and `scheduleRetry`: absent names collapse to the
single string key `"unnamed"`. -/
def cardKey (c : Card) : String :=
  c.name.getD "unnamed"

/-- `this.maxRetries = 3` from the `IntelligentThumbnailLoader`
constructor. -/
def maxRetries : Nat := 3

/-- `retryDelay: 1000` from `this.config` in the constructor. -/
def retryDelay : Nat := 1000

/-- The loader's name-keyed tracking sets `this.loadedImages` and
`this.loadingImages` (JavaScript `Set`s of card-name strings; the add
guard keeps the lists duplicate-free, so list membership is set
membership). -/
structure LoaderState where
  loadedImages : List String
  loadingImages : List String
deriving DecidableEq

/-- The outcome of one `loadCardThumbnails(card)` run: `skipped` is the
early `return` when the card's name key is already in `loadedImages` or
`loadingImages` (nothing is loaded and the loading indicator is not
touched); `done results` records that the body ran to the end of the
`try` block with the given per-image load outcomes — the name was added
to `loadedImages` and `removeLoadingIndicator(card)` ran. There is no
retry outcome: the body awaits `Promise.allSettled(loadPromises)`, which
resolves whatever the individual outcomes are, so the `catch` block that
calls `scheduleRetry(card)` is unreachable for image-load failures. -/
inductive LoadOutcome where
  | skipped
  | done (results : List Bool)
deriving DecidableEq

/-- Embeds `loadCardThumbnails(card)` (source lines 289-325).
`results` are the outcomes of the `loadSingleImage` promises for the
card's tracked images (`true` = resolved, `false` = rejected); they are
a parameter because the network is external. The body adds the name key
to `loadingImages`, awaits `Promise.allSettled` (which never throws),
adds the key to `loadedImages`, removes the loading indicator, and the
`finally` deletes the key from `loadingImages` again — so across the
whole call `loadingImages` is net unchanged and only `loadedImages`
grows. -/
def loadCardThumbnails (s : LoaderState) (card : Card) (results : List Bool) :
    LoaderState × LoadOutcome :=
  let cardName := cardKey card
  if cardName ∈ s.loadedImages ∨ cardName ∈ s.loadingImages then
    (s, .skipped)
  else
    ({ s with loadedImages := cardName :: s.loadedImages }, .done results)

/-- Embeds `scheduleRetry(card)` (source lines 353-368) over the
name-keyed `this.retryAttempts` map, modeled as an association list read
through `List.lookup` (prepending a binding is `Map.set`: later lookups
see the newest binding). `(retryAttempts.get(cardName) || 0)` is
`(lookup cardName).getD 0`. The result's second component is the delay
passed to `setTimeout` (`this.config.retryDelay * (retryCount + 1)`)
when a retry is scheduled, or `none` when `retryCount` has reached
`maxRetries`, in which case the loading indicator is removed and no
timeout is scheduled. -/
def scheduleRetry (retryAttempts : List (String × Nat)) (card : Card) :
    List (String × Nat) × Option Nat :=
  let cardName := cardKey card
  let retryCount := (retryAttempts.lookup cardName).getD 0
  if retryCount < maxRetries then
    ((cardName, retryCount + 1) :: retryAttempts, some (retryDelay * (retryCount + 1)))
  else
    (retryAttempts, none)

/-- Iterates `scheduleRetry` for one card `k` times from an empty
`retryAttempts` map (every total load failure for the card would invoke
`scheduleRetry` once), collecting the map and the list of delays of the
retries actually scheduled, in order. -/
def retryTrace (c : Card) : Nat → List (String × Nat) × List Nat
  | 0 => ([], [])
  | k + 1 =>
    let prev := retryTrace c k
    let step := scheduleRetry prev.1 c
    (step.1, prev.2 ++ step.2.toList)

/-- The element-keyed registration state of the loader:
`observedCards` is `this.observedCards` (a `Set` of card ELEMENTS, not
names) and `observations` records the `this.observer.observe(card)`
calls issued, newest first. -/
structure ObserverState where
  observedCards : List Card
  observations : List Card
deriving DecidableEq

/-- Embeds `processCard(card)` (source lines 156-187).
`thumbnailCount` is the length of `findThumbnailImages(card)` (a DOM
query, external input). The function returns `false` without side
effects when the element is already in `observedCards` or when no
thumbnail was found; otherwise it adds the element to `observedCards`,
prepares each thumbnail and attaches the loading indicator
(presentational, omitted), starts exactly one intersection observation,
and returns `true`. -/
def processCard (s : ObserverState) (card : Card) (thumbnailCount : Nat) :
    Bool × ObserverState :=
  if card ∈ s.observedCards then (false, s)
  else if thumbnailCount = 0 then (false, s)
  else (true, { observedCards := card :: s.observedCards,
                observations := card :: s.observations })

end ThumbLoader

namespace ProgressBar

/- Numeric values of the `mkRat` threshold constants, for arithmetic
tactics. -/

theorem mkRat_5_100_eq : (mkRat 5 100 : ℚ) = 1 / 20 := by norm_num [mkRat]

theorem mkRat_2_10_eq : (mkRat 2 10 : ℚ) = 1 / 5 := by norm_num [mkRat]

theorem mkRat_7_10_eq : (mkRat 7 10 : ℚ) = 7 / 10 := by norm_num [mkRat]

theorem mkRat_95_100_eq : (mkRat 95 100 : ℚ) = 19 / 20 := by norm_num [mkRat]

/- Branch characterizations of `getSmartRefreshRate`. -/

theorem rate_eq_1000 {p : ℚ} {a : Bool} (h : a = false ∨ p < 1 / 20) :
    getSmartRefreshRate p a = 1000 := by
  have hc : (¬a ∨ p < mkRat 5 100) := by
    rcases h with h | h
    · exact Or.inl (by simp [h])
    · exact Or.inr (by rw [mkRat_5_100_eq]; exact h)
  simp only [getSmartRefreshRate]
  rw [if_pos hc]

theorem rate_eq_800 {p : ℚ} (h1 : 1 / 20 ≤ p) (h2 : p < 1 / 5) :
    getSmartRefreshRate p true = 800 := by
  simp only [getSmartRefreshRate, mkRat_5_100_eq, mkRat_2_10_eq]
  rw [if_neg (by simp; linarith), if_pos h2]

theorem rate_eq_400 {p : ℚ} (h1 : 1 / 5 ≤ p) (h2 : p < 7 / 10) :
    getSmartRefreshRate p true = 400 := by
  simp only [getSmartRefreshRate, mkRat_5_100_eq, mkRat_2_10_eq, mkRat_7_10_eq]
  rw [if_neg (by simp; linarith), if_neg (by simp; linarith), if_pos h2]

theorem rate_eq_250 {p : ℚ} (h1 : 7 / 10 ≤ p) (h2 : p < 19 / 20) :
    getSmartRefreshRate p true = 250 := by
  simp only [getSmartRefreshRate, mkRat_5_100_eq, mkRat_2_10_eq, mkRat_7_10_eq,
    mkRat_95_100_eq]
  rw [if_neg (by simp; linarith), if_neg (by simp; linarith),
    if_neg (by simp; linarith), if_pos h2]

theorem rate_eq_200 {p : ℚ} (h : 19 / 20 ≤ p) :
    getSmartRefreshRate p true = 200 := by
  simp only [getSmartRefreshRate, mkRat_5_100_eq, mkRat_2_10_eq, mkRat_7_10_eq,
    mkRat_95_100_eq]
  rw [if_neg (by simp; linarith), if_neg (by simp; linarith),
    if_neg (by simp; linarith), if_neg (by simp; linarith)]

/-- For the active task, the delay table is non-increasing in progress. -/
theorem rate_mono (p q : ℚ) (h : p ≤ q) :
    getSmartRefreshRate q true ≤ getSmartRefreshRate p true := by
  rcases lt_or_le q (1 / 20) with hq | hq
  · rw [rate_eq_1000 (Or.inr hq), rate_eq_1000 (Or.inr (lt_of_le_of_lt h hq))]
  · rcases lt_or_le q (1 / 5) with hq2 | hq2
    · rw [rate_eq_800 hq hq2]
      rcases lt_or_le p (1 / 20) with hp | hp
      · rw [rate_eq_1000 (Or.inr hp)]; norm_num
      · rw [rate_eq_800 hp (lt_of_le_of_lt h hq2)]
    · rcases lt_or_le q (7 / 10) with hq3 | hq3
      · rw [rate_eq_400 hq2 hq3]
        rcases lt_or_le p (1 / 20) with hp | hp
        · rw [rate_eq_1000 (Or.inr hp)]; norm_num
        · rcases lt_or_le p (1 / 5) with hp2 | hp2
          · rw [rate_eq_800 hp hp2]; norm_num
          · rw [rate_eq_400 hp2 (lt_of_le_of_lt h hq3)]
      · rcases lt_or_le q (19 / 20) with hq4 | hq4
        · rw [rate_eq_250 hq3 hq4]
          rcases lt_or_le p (1 / 20) with hp | hp
          · rw [rate_eq_1000 (Or.inr hp)]; norm_num
          · rcases lt_or_le p (1 / 5) with hp2 | hp2
            · rw [rate_eq_800 hp hp2]; norm_num
            · rcases lt_or_le p (7 / 10) with hp3 | hp3
              · rw [rate_eq_400 hp2 hp3]; norm_num
              · rw [rate_eq_250 hp3 (lt_of_le_of_lt h hq4)]
        · rw [rate_eq_200 hq4]
          rcases lt_or_le p (1 / 20) with hp | hp
          · rw [rate_eq_1000 (Or.inr hp)]; norm_num
          · rcases lt_or_le p (1 / 5) with hp2 | hp2
            · rw [rate_eq_800 hp hp2]; norm_num
            · rcases lt_or_le p (7 / 10) with hp3 | hp3
              · rw [rate_eq_400 hp2 hp3]; norm_num
              · rcases lt_or_le p (19 / 20) with hp4 | hp4
                · rw [rate_eq_250 hp3 hp4]; norm_num
                · rw [rate_eq_200 hp4]

end ProgressBar

namespace ProgressBar

/-- C4 counterexample: `formatTime` applies `pad2` to the LEADING field
as well, so `formatTime(3661)` renders as `"01:01:01"` and not as the
claimed `"1:01:01"`, and `formatTime(90)` as `"01:30"`, not `"1:30"`. -/
theorem formatTime_pads_leading_field :
    formatTime 3661 = "01:01:01" ∧ formatTime 3661 ≠ "1:01:01" ∧
    formatTime 90 = "01:30" ∧ formatTime 90 ≠ "1:30" := by decide

/-- C4 (amended): `formatTime` renders `HH:MM:SS` with every field,
including the leading hours, zero-padded to two digits when
`secs > 3600`, `MM:SS` with both fields zero-padded when
`60 < secs ≤ 3600`, and `Ns` otherwise; concretely
`formatTime 3661 = "01:01:01"`, `formatTime 90 = "01:30"`,
`formatTime 45 = "45s"`. -/
theorem formatTime_concrete_values :
    formatTime 3661 = "01:01:01" ∧ formatTime 90 = "01:30" ∧
    formatTime 45 = "45s" := by decide

/-- C5: the adaptive delay table of `getSmartRefreshRate` — 1000 ms when
inactive or progress < 0.05, 800 ms on [0.05, 0.2), 400 ms on
[0.2, 0.7), 250 ms on [0.7, 0.95), 200 ms at and above 0.95 — and, for
a fixed active task, the delay is monotonically non-increasing in the
progress (`mkRat 5 100` is the source literal `0.05`, etc.). -/
theorem getSmartRefreshRate_table_and_mono
    (p q : ℚ) (a : Bool) (h0 : 0 ≤ p) (h1 : p ≤ 1) (hpq : p ≤ q) (hq1 : q ≤ 1) :
    ((a = false ∨ p < mkRat 5 100) → getSmartRefreshRate p a = 1000) ∧
    (a = true → mkRat 5 100 ≤ p → p < mkRat 2 10 → getSmartRefreshRate p a = 800) ∧
    (a = true → mkRat 2 10 ≤ p → p < mkRat 7 10 → getSmartRefreshRate p a = 400) ∧
    (a = true → mkRat 7 10 ≤ p → p < mkRat 95 100 → getSmartRefreshRate p a = 250) ∧
    (a = true → mkRat 95 100 ≤ p → getSmartRefreshRate p a = 200) ∧
    getSmartRefreshRate q true ≤ getSmartRefreshRate p true := by
  refine ⟨?_, ?_, ?_, ?_, ?_, rate_mono p q hpq⟩
  · intro h
    refine rate_eq_1000 ?_
    rcases h with h | h
    · exact Or.inl h
    · rw [mkRat_5_100_eq] at h; exact Or.inr h
  · intro ha hl hu; subst ha
    rw [mkRat_5_100_eq] at hl; rw [mkRat_2_10_eq] at hu
    exact rate_eq_800 hl hu
  · intro ha hl hu; subst ha
    rw [mkRat_2_10_eq] at hl; rw [mkRat_7_10_eq] at hu
    exact rate_eq_400 hl hu
  · intro ha hl hu; subst ha
    rw [mkRat_7_10_eq] at hl; rw [mkRat_95_100_eq] at hu
    exact rate_eq_250 hl hu
  · intro ha hl; subst ha
    rw [mkRat_95_100_eq] at hl
    exact rate_eq_200 hl

/-- C5 witness: the table and monotonicity instantiated at
progress 0.5 versus 0.96, active. -/
theorem getSmartRefreshRate_table_and_mono_witness :
    ((true = false ∨ mkRat 1 2 < mkRat 5 100) →
      getSmartRefreshRate (mkRat 1 2) true = 1000) ∧
    (true = true → mkRat 5 100 ≤ mkRat 1 2 → mkRat 1 2 < mkRat 2 10 →
      getSmartRefreshRate (mkRat 1 2) true = 800) ∧
    (true = true → mkRat 2 10 ≤ mkRat 1 2 → mkRat 1 2 < mkRat 7 10 →
      getSmartRefreshRate (mkRat 1 2) true = 400) ∧
    (true = true → mkRat 7 10 ≤ mkRat 1 2 → mkRat 1 2 < mkRat 95 100 →
      getSmartRefreshRate (mkRat 1 2) true = 250) ∧
    (true = true → mkRat 95 100 ≤ mkRat 1 2 →
      getSmartRefreshRate (mkRat 1 2) true = 200) ∧
    getSmartRefreshRate (mkRat 96 100) true ≤ getSmartRefreshRate (mkRat 1 2) true :=
  getSmartRefreshRate_table_and_mono (mkRat 1 2) (mkRat 96 100) true
    (by decide) (by decide) (by decide) (by decide)

/-- C1: when a successful response has `active = false` and
`completed = false` while the session's ever-active flag is already set
(an earlier response had `active = true`), the `funProgress` handler
runs `removeProgressBar` and exits through the drop-from-active branch,
scheduling no further poll. -/
theorem funProgress_drop_from_active_terminates
    (s : Session) (inactivityTimeout elapsed : ℚ) (res : ProgressResponse)
    (hev : s.wasEverActive = true) (hc : res.completed = false)
    (ha : res.active = false) :
    funProgress s inactivityTimeout elapsed res =
      (removeProgressBar s, ProgressOutcome.droppedExit) := by
  simp [funProgress, hc, ha, hev]

/-- C1 witness: a live session whose flag is set receives
`{completed: false, active: false, progress: 0.5}` and terminates via
the drop-from-active branch. -/
theorem funProgress_drop_from_active_terminates_witness :
    funProgress ⟨true, true, 0⟩ 40 (mkRat 1 2)
        ⟨false, false, false, some (mkRat 1 2), none, none⟩ =
      (removeProgressBar ⟨true, true, 0⟩, ProgressOutcome.droppedExit) :=
  funProgress_drop_from_active_terminates _ _ _ _ rfl rfl rfl

/-- C6: with `inactivityTimeoutSeconds = 40`, a session that was never
active (flag unset) handling a successful response with
`active = false`, `queued = false`, `completed = false` (so neither the
completion branch nor the drop branch can fire) strictly after 40
elapsed seconds terminates via the inactivity-timeout branch: cleanup
runs and no further poll is scheduled. -/
theorem funProgress_inactivity_timeout
    (s : Session) (elapsed : ℚ) (res : ProgressResponse)
    (hev : s.wasEverActive = false) (hc : res.completed = false)
    (ha : res.active = false) (hq : res.queued = false) (he : elapsed > 40) :
    funProgress s 40 elapsed res =
      (removeProgressBar s, ProgressOutcome.timeoutExit) := by
  simp [funProgress, hc, ha, hq, hev, he]

/-- C6 witness: a never-active session at 41 elapsed seconds terminates
via the timeout branch, not the completion branch. -/
theorem funProgress_inactivity_timeout_witness :
    (41 : ℚ) > 40 ∧
    funProgress ⟨true, false, 0⟩ 40 41 ⟨false, false, false, none, none, none⟩ =
      (removeProgressBar ⟨true, false, 0⟩, ProgressOutcome.timeoutExit) :=
  ⟨by decide, funProgress_inactivity_timeout _ _ _ rfl rfl rfl rfl (by decide)⟩

/-- C7 counterexample: the Terminated state CAN be left by the progress
loop. After the live-preview loop's transport error terminates the
session (`removeProgressBar` has run, `divProgress` is null), a
progress-loop cycle still in flight handles
`{completed: false, active: true, progress: 0.5}` and schedules another
poll (`setTimeout` with delay 400 ms) — `funProgress` never checks
`divProgress`. -/
theorem funProgress_reschedules_after_terminal :
    (funLivePreviewOnError ⟨true, false, 0⟩).divProgress = false ∧
    funProgress (funLivePreviewOnError ⟨true, false, 0⟩) 40 1
        ⟨false, true, false, some (mkRat 1 2), none, none⟩ =
      (⟨false, true, 1⟩, ProgressOutcome.reschedule 400) := by decide

/-- C7 (amended): only the live-preview loop is guarded against a
terminated session: once `removeProgressBar` has run
(`divProgress = false`), a live-preview cycle exits without scheduling
anything; the progress loop has no such guard, so a progress cycle in
flight at termination can still reschedule (see the counterexample). -/
theorem funLivePreview_terminal_guard
    (s : Session) (res : ProgressResponse) (h : s.divProgress = false) :
    funLivePreview s res = (s, PreviewCycleOutcome.droppedCycle) := by
  simp [funLivePreview, h]

/-- C7 witness: a terminated session's live-preview cycle drops without
rescheduling. -/
theorem funLivePreview_terminal_guard_witness :
    funLivePreview ⟨false, true, 1⟩ ⟨false, true, false, none, none, none⟩ =
      (⟨false, true, 1⟩, PreviewCycleOutcome.droppedCycle) :=
  funLivePreview_terminal_guard _ _ rfl

/-- C8 counterexample: after three preview images arrive (each
`img.onload` handler has completed), all three are present in the
container at once — the eviction of the oldest is only scheduled, in a
300 ms `setTimeout` that has not yet fired — so "at most 2 present at
any time" fails. -/
theorem preview_three_images_present :
    (previewRun ⟨[], []⟩
        [PreviewEvent.arrive 1, PreviewEvent.arrive 2, PreviewEvent.arrive 3]).images
      = [1, 2, 3] ∧
    (previewRun ⟨[], []⟩
        [PreviewEvent.arrive 1, PreviewEvent.arrive 2, PreviewEvent.arrive 3]).images.length
      = 3 := by decide

/-- C8 (amended): from a container with at most 2 images and no pending
removal, a new arrival leaves at most 3 images present transiently; when
the container held 2 the arrival schedules removal of exactly the oldest
image (the first child), and once that scheduled removal fires at most 2
images remain, the survivors being the previous tail plus the newcomer —
oldest evicted first. -/
theorem previewStep_bound_and_oldest_evicted
    (s : PreviewState) (img : Nat) (hp : s.pendingRemovals = [])
    (hlen : s.images.length ≤ 2) :
    (previewStep s (.arrive img)).images.length ≤ 3 ∧
    (previewStep (previewStep s (.arrive img)) .fire).images.length ≤ 2 ∧
    (s.images.length = 2 →
      (previewStep s (.arrive img)).pendingRemovals = [s.images.headD 0] ∧
      (previewStep (previewStep s (.arrive img)) .fire).images =
        s.images.tail ++ [img]) := by
  obtain ⟨imgs, pend⟩ := s
  simp only at hp hlen
  subst hp
  rcases imgs with _ | ⟨a, _ | ⟨b, _ | ⟨c, t⟩⟩⟩
  · simp [previewStep]
  · simp [previewStep]
  · simp [previewStep, List.erase_cons_head]
  · simp at hlen

/-- C8 amended witness: container `[5, 6]`, image `7` arrives — three
images transiently, removal targets `5`, after firing `[6, 7]` remain. -/
theorem previewStep_bound_and_oldest_evicted_witness :
    (previewStep ⟨[5, 6], []⟩ (.arrive 7)).images.length ≤ 3 ∧
    (previewStep (previewStep ⟨[5, 6], []⟩ (.arrive 7)) .fire).images.length ≤ 2 ∧
    (([5, 6] : List Nat).length = 2 →
      (previewStep ⟨[5, 6], []⟩ (.arrive 7)).pendingRemovals =
        [([5, 6] : List Nat).headD 0] ∧
      (previewStep (previewStep ⟨[5, 6], []⟩ (.arrive 7)) .fire).images =
        ([5, 6] : List Nat).tail ++ [7]) :=
  previewStep_bound_and_oldest_evicted ⟨[5, 6], []⟩ 7 rfl (by decide)

end ProgressBar

namespace ThumbLoader

/-- Unfolding equation for `scheduleRetry` with its let-bindings
expanded. -/
theorem scheduleRetry_eq (m : List (String × Nat)) (c : Card) :
    scheduleRetry m c =
      if (m.lookup (cardKey c)).getD 0 < maxRetries then
        ((cardKey c, (m.lookup (cardKey c)).getD 0 + 1) :: m,
          some (retryDelay * ((m.lookup (cardKey c)).getD 0 + 1)))
      else (m, none) := rfl

/-- Invariant of the retry iteration: after `k` invocations of
`scheduleRetry` for one card, the card's stored retry count is
`min k maxRetries` and the scheduled delays so far are exactly
`retryDelay * 1, retryDelay * 2, ...` up to the `min k maxRetries`-th. -/
theorem retryTrace_spec (c : Card) (k : Nat) :
    ((retryTrace c k).1.lookup (cardKey c)).getD 0 = min k maxRetries ∧
    (retryTrace c k).2 =
      (List.range (min k maxRetries)).map (fun i => retryDelay * (i + 1)) := by
  induction k with
  | zero => simp [retryTrace]
  | succ k ih =>
    obtain ⟨ih1, ih2⟩ := ih
    rcases Nat.lt_or_ge k maxRetries with hk | hk
    · have hmin : min k maxRetries = k := Nat.min_eq_left (Nat.le_of_lt hk)
      have hmin1 : min (k + 1) maxRetries = k + 1 := Nat.min_eq_left hk
      have hlt : ((retryTrace c k).1.lookup (cardKey c)).getD 0 < maxRetries := by
        rw [ih1, hmin]; exact hk
      constructor
      · simp only [retryTrace, scheduleRetry_eq, if_pos hlt]
        simp [List.lookup, ih1, hmin, hmin1]
      · simp only [retryTrace, scheduleRetry_eq, if_pos hlt]
        simp [ih1, ih2, hmin, hmin1, List.range_succ]
    · have hmin : min k maxRetries = maxRetries := Nat.min_eq_right hk
      have hmin1 : min (k + 1) maxRetries = maxRetries :=
        Nat.min_eq_right (Nat.le_succ_of_le hk)
      have hge : ¬ ((retryTrace c k).1.lookup (cardKey c)).getD 0 < maxRetries := by
        rw [ih1, hmin]; omega
      constructor
      · simp only [retryTrace, scheduleRetry_eq, if_neg hge]
        rw [ih1, hmin, hmin1]
      · simp only [retryTrace, scheduleRetry_eq, if_neg hge]
        simp [ih2, hmin, hmin1]

/-- C3: for one card, across any number `k` of `scheduleRetry`
invocations from a fresh `retryAttempts` map, the delays actually
scheduled are `retryDelay * n` for the `n`-th retry (linear backoff with
base 1000 ms), at most `maxRetries = 3` retries are ever scheduled, so
the total number of load attempts (the initial one plus the scheduled
retries) never exceeds `maxRetries + 1`. -/
theorem scheduleRetry_bounded_linear_backoff (c : Card) (k : Nat) :
    (retryTrace c k).2 =
      (List.range (min k maxRetries)).map (fun i => retryDelay * (i + 1)) ∧
    (retryTrace c k).2.length + 1 ≤ maxRetries + 1 := by
  obtain ⟨-, h2⟩ := retryTrace_spec c k
  refine ⟨h2, ?_⟩
  rw [h2]
  simp only [List.length_map, List.length_range]
  exact Nat.succ_le_succ (Nat.min_le_right k maxRetries)

/-- C2 (the code contradicts the claim): a card named `"foo"` whose
image loads ALL fail (`[false, false]`). Because the body awaits
`Promise.allSettled`, which resolves regardless of the rejections, the
`catch` block that would call `scheduleRetry` is unreachable: the run
reaches the end of the `try`, adds `"foo"` to `loadedImages` and removes
the loading indicator (`LoadOutcome.done`), scheduling no retry — even
though the file's own header documents "automatic retry for failed
loads". -/
theorem loadCardThumbnails_total_failure_marks_loaded :
    loadCardThumbnails ⟨[], []⟩ ⟨0, some "foo"⟩ [false, false] =
      (⟨["foo"], []⟩, LoadOutcome.done [false, false]) := by decide

/-- C9: registration via `processCard` is idempotent per element. A
first call on an untracked card with at least one thumbnail returns
`true`, adds exactly one entry to `observedCards` and issues exactly one
`observer.observe` call; any second call on the same element returns
`false` and leaves the state unchanged, whatever the thumbnail query
returns then. -/
theorem processCard_idempotent
    (s : ObserverState) (card : Card) (tc tc2 : Nat)
    (hmem : card ∉ s.observedCards) (htc : tc ≠ 0) :
    (processCard s card tc).1 = true ∧
    (processCard s card tc).2.observedCards = card :: s.observedCards ∧
    (processCard s card tc).2.observations = card :: s.observations ∧
    processCard (processCard s card tc).2 card tc2 =
      (false, (processCard s card tc).2) := by
  simp [processCard, hmem, htc]

/-- C9 witness: registering card 1 once on an empty state, then calling
again. -/
theorem processCard_idempotent_witness :
    (processCard ⟨[], []⟩ ⟨1, some "x"⟩ 1).1 = true ∧
    (processCard ⟨[], []⟩ ⟨1, some "x"⟩ 1).2.observedCards = [⟨1, some "x"⟩] ∧
    (processCard ⟨[], []⟩ ⟨1, some "x"⟩ 1).2.observations = [⟨1, some "x"⟩] ∧
    processCard (processCard ⟨[], []⟩ ⟨1, some "x"⟩ 1).2 ⟨1, some "x"⟩ 5 =
      (false, (processCard ⟨[], []⟩ ⟨1, some "x"⟩ 1).2) :=
  processCard_idempotent ⟨[], []⟩ ⟨1, some "x"⟩ 1 5 (by decide) (by decide)

/-- C10: load state is keyed by the `data-name` string, not by element
identity. Two distinct elements with the same `data-name` share one key
(and nameless cards all share the key `"unnamed"`); once that key is in
`loadedImages` or `loadingImages`, `loadCardThumbnails` on the other
element returns immediately (`LoadOutcome.skipped`): the state is
unchanged, no image is loaded and the element's loading indicator is not
removed. -/
theorem loadCardThumbnails_keyed_by_name
    (s : LoaderState) (c1 c2 : Card) (results : List Bool)
    (hname : c1.name = c2.name)
    (hmem : cardKey c1 ∈ s.loadedImages ∨ cardKey c1 ∈ s.loadingImages) :
    cardKey c1 = cardKey c2 ∧
    (c1.name = none → cardKey c1 = "unnamed" ∧ cardKey c2 = "unnamed") ∧
    loadCardThumbnails s c2 results = (s, LoadOutcome.skipped) := by
  have hk : cardKey c1 = cardKey c2 := by simp [cardKey, hname]
  refine ⟨hk, ?_, ?_⟩
  · intro hn
    have hn2 : c2.name = none := hname ▸ hn
    exact ⟨by simp [cardKey, hn], by simp [cardKey, hn2]⟩
  · have hmem2 : cardKey c2 ∈ s.loadedImages ∨ cardKey c2 ∈ s.loadingImages :=
      hk ▸ hmem
    simp [loadCardThumbnails, hmem2]

/-- C10 witness: elements 0 and 1 both named "x"; with "x" already in
`loadedImages`, loading element 1 is skipped. -/
theorem loadCardThumbnails_keyed_by_name_witness :
    cardKey ⟨0, some "x"⟩ = cardKey ⟨1, some "x"⟩ ∧
    ((⟨0, some "x"⟩ : Card).name = none →
      cardKey ⟨0, some "x"⟩ = "unnamed" ∧ cardKey ⟨1, some "x"⟩ = "unnamed") ∧
    loadCardThumbnails ⟨["x"], []⟩ ⟨1, some "x"⟩ [true] =
      (⟨["x"], []⟩, LoadOutcome.skipped) :=
  loadCardThumbnails_keyed_by_name ⟨["x"], []⟩ ⟨0, some "x"⟩ ⟨1, some "x"⟩ [true]
    rfl (Or.inl (by decide))

end ThumbLoader
